import Mathlib

/-!
# Verification development for the EventChain Submission Judging Engine

Shallow embedding of the backend `aiService` module (the Submission Judging
Engine): the post-parse step of `verifyChallenge`, the response validator
`validateAIResponse`, the winner selector `determineWinners` with
`calculateRewardDistribution`, and the fraud detector `detectFraud` with its
four check functions.

Modelling conventions:
* JavaScript numbers are rationals `ℚ`; `NaN` is represented by `none` in
  `Option ℚ` where it can arise (`Math.min`/`Math.max` on a non-number,
  division `0 / 0` in the score-anomaly average).
* Dates are epoch milliseconds `ℤ` (ISO-8601 parsing is order-preserving and
  out of scope); `new Date()` becomes an explicit `now : ℤ` parameter.
* A dynamically-typed judge-response field is `Option JsValue`
  (`none` = property absent / `undefined`).
* A parameter that the JS code assumes is an array is `Option (List _)`:
  `none` stands for a non-array value, on which the array methods the code
  calls (`find`, `filter`) throw; fallible functions return `Except String _`.
-/

namespace EventChain

/-- A dynamically-typed JSON value, as far as the judge-response fields need:
booleans, numbers, strings and `null`. -/
inductive JsValue where
  | bool (b : Bool)
  | num (q : ℚ)
  | str (s : String)
  | null
deriving DecidableEq, Repr

/-- The record obtained from `JSON.parse` of the judge's reply.  Each field is
`none` when the parsed object lacks the property. -/
structure JudgeResponse where
  isValid : Option JsValue
  score : Option JsValue
  reasoning : Option JsValue
  confidence : Option JsValue
deriving DecidableEq, Repr

/-- `required = ['isValid', 'score', 'reasoning', 'confidence']` in
`validateAIResponse`. -/
def requiredFields : List String :=
  ["isValid", "score", "reasoning", "confidence"]

/-- JS `field in response` for the four judge-response properties. -/
def hasField (r : JudgeResponse) : String → Bool
  | "isValid" => r.isValid.isSome
  | "score" => r.score.isSome
  | "reasoning" => r.reasoning.isSome
  | "confidence" => r.confidence.isSome
  | _ => false

/-- `required.filter(field => !(field in response))`. -/
def missingFields (r : JudgeResponse) : List String :=
  requiredFields.filter (fun f => ! hasField r f)

/-- JS `typeof v === 'boolean'` on an optional field. -/
def isBooleanField : Option JsValue → Bool
  | some (.bool _) => true
  | _ => false

/-- The numeric value of a field when `typeof v === 'number'`. -/
def asNumber : Option JsValue → Option ℚ
  | some (.num q) => some q
  | _ => none

/-- `validateAIResponse(response)` — throws (here: `Except.error`) on a
missing field, a non-boolean `isValid`, a non-numeric or out-of-range `score`,
or a non-numeric or out-of-range `confidence`; returns `true` otherwise. -/
def validateAIResponse (r : JudgeResponse) : Except String Bool :=
  if missingFields r ≠ [] then
    .error ("AI response missing required fields: "
      ++ String.intercalate ", " (missingFields r))
  else if ! isBooleanField r.isValid then
    .error "isValid must be a boolean"
  else
    match asNumber r.score with
    | none => .error "score must be a number between 0 and 100"
    | some s =>
      if s < 0 ∨ s > 100 then .error "score must be a number between 0 and 100"
      else
        match asNumber r.confidence with
        | none => .error "confidence must be a number between 0 and 1"
        | some c =>
          if c < 0 ∨ c > 1 then .error "confidence must be a number between 0 and 1"
          else .ok true

/-- JS `ToNumber` coercion of an optional judge-response field, with `none`
standing for `NaN`.  `undefined` coerces to `NaN`; strings other than numeric
literals coerce to `NaN` (numeric-string coercion never occurs in the judged
claims, which quantify over numeric scores, so it is mapped to `NaN` too). -/
def toJsNumber : Option JsValue → Option ℚ
  | some (.num q) => some q
  | some (.bool b) => some (if b then 1 else 0)
  | some .null => some 0
  | _ => none

/-- `Math.min` with `NaN` (`none`) absorbing. -/
def jsMin (a b : Option ℚ) : Option ℚ :=
  match a, b with
  | some x, some y => some (min x y)
  | _, _ => none

/-- `Math.max` with `NaN` (`none`) absorbing. -/
def jsMax (a b : Option ℚ) : Option ℚ :=
  match a, b with
  | some x, some y => some (max x y)
  | _, _ => none

/-- The verdict object built by `verifyChallenge`: the parsed fields passed
through, the score clamped, plus provenance metadata. -/
structure Verdict where
  isValid : Option JsValue
  score : Option ℚ
  reasoning : Option JsValue
  confidence : Option JsValue
  aiModel : String
  timestamp : String
deriving DecidableEq, Repr

/-- The post-parse step of `verifyChallenge`: given the record that
`JSON.parse` produced from the judge's reply, build and return the verdict
with `score: Math.max(0, Math.min(100, verification.score))`.  No validation
is performed on the parsed record (`validateAIResponse` is never invoked by
`verifyChallenge`), so this step is total: it always returns a `Verdict`. -/
def verifyChallengeResult (r : JudgeResponse) (model ts : String) : Verdict :=
  { isValid := r.isValid
    score := jsMax (some 0) (jsMin (some 100) (toJsNumber r.score))
    reasoning := r.reasoning
    confidence := r.confidence
    aiModel := model
    timestamp := ts }

/-! ## WinnerSelector (`determineWinners`, `calculateRewardDistribution`) -/

/-- The verdict attached to a submission, as far as `determineWinners` and
`detectFraud` read it: `verification.isValid` and `verification.score`. -/
structure SubVerification where
  isValid : Bool
  score : ℚ
deriving DecidableEq, Repr

/-- `submission.metadata` — the three properties `checkMetadataConsistency`
reads, each `none` when absent. -/
structure SubMetadata where
  device : Option String
  timestamp : Option String
  location : Option String
deriving DecidableEq, Repr

/-- A challenge submission, restricted to the fields the judging engine
reads: `submissionId`, `submitter`, the parsed `timestamp` (epoch millis),
the optional attached verdict, `proofHash` and `metadata`. -/
structure Submission where
  submissionId : String
  submitter : String
  timestamp : ℤ
  verification : Option SubVerification
  proofHash : Option String
  metadata : Option SubMetadata
deriving DecidableEq, Repr

/-- `sub.verification.score`, the score read off a submission during sorting
and fraud checks.  In `determineWinners` it is only evaluated after the
`sub.verification && sub.verification.isValid` filter, so the `none` branch is
unreachable there; `0` mirrors `submission.verification?.score || 0` from
`checkScoreAnomalies`, the one place the code reads a score that may be
absent. -/
def vscore (s : Submission) : ℚ :=
  match s.verification with
  | some v => v.score
  | none => 0

/-- The JS comparator passed to `.sort`: score descending
(`b.verification.score - a.verification.score` when the scores differ), then
timestamp ascending (`new Date(a.timestamp) - new Date(b.timestamp)`). -/
def subCmp (a b : Submission) : ℚ :=
  if vscore b ≠ vscore a then vscore b - vscore a
  else ((a.timestamp - b.timestamp : ℤ) : ℚ)

/-- `a` may be placed before `b` by the sort: the comparator is ≤ 0.  A JS
`Array.prototype.sort` with a consistent comparator is a stable sort with
respect to this relation. -/
def subLE (a b : Submission) : Prop := subCmp a b ≤ 0

theorem subLE_iff (a b : Submission) :
    subLE a b ↔ vscore b < vscore a ∨
      (vscore b = vscore a ∧ a.timestamp ≤ b.timestamp) := by
  unfold subLE subCmp
  by_cases h : vscore b = vscore a
  · simp only [h, ne_eq, not_true_eq_false, if_false, true_and]
    constructor
    · intro hle
      right
      exact_mod_cast sub_nonpos.mp (by exact_mod_cast hle)
    · rintro (hlt | hts)
      · exact absurd rfl hlt.ne
      · have : (a.timestamp - b.timestamp : ℤ) ≤ 0 := sub_nonpos.mpr hts
        exact_mod_cast this
  · simp only [ne_eq, h, not_false_eq_true, if_true]
    constructor
    · intro hle
      left
      exact lt_of_le_of_ne (sub_nonpos.mp hle) h
    · rintro (hlt | ⟨heq, _⟩)
      · exact sub_nonpos.mpr hlt.le
      · exact heq.elim

instance : DecidableRel subLE := fun a b =>
  decidable_of_iff _ (subLE_iff a b).symm

/-- The reward-percentage table of `calculateRewardDistribution`, keyed by
`winnerCount = Math.min(winners.length, maxWinners)`; a count outside `{1,2,3}`
falls back to the 3-entry table (`distributions[winnerCount] ||
distributions[3]`). -/
def calculateRewardDistribution (winnersLength maxWinners : ℕ) : List ℚ :=
  let winnerCount := min winnersLength maxWinners
  if winnerCount = 1 then [100]
  else if winnerCount = 2 then [70, 30]
  else if winnerCount = 3 then [50, 30, 20]
  else [50, 30, 20]

/-- One entry of the returned `winners` array. -/
structure WinnerRecord where
  submissionId : String
  submitter : String
  score : ℚ
  rank : ℕ
  rewardPercentage : Option ℚ
deriving DecidableEq, Repr

/-- `winners.map((winner, index) => ({...}))`: the record built for the
winner at position `i` (0-based), with `rank = i + 1` and
`rewardPercentage = rewardDistribution[i]` (`none` when the array has no
entry at `i`, i.e. JS `undefined`). -/
def mkWinnerRecords (dist : List ℚ) : List Submission → ℕ → List WinnerRecord
  | [], _ => []
  | w :: rest, i =>
    { submissionId := w.submissionId
      submitter := w.submitter
      score := vscore w
      rank := i + 1
      rewardPercentage := dist[i]? } :: mkWinnerRecords dist rest (i + 1)

/-- The object `determineWinners` returns. -/
structure WinnerResult where
  winners : List WinnerRecord
  totalSubmissions : ℕ
  validSubmissions : ℕ
  timestamp : ℤ
deriving DecidableEq, Repr

/-- `submissions.filter(sub => sub.verification && sub.verification.isValid)`. -/
def validSubmissionsOf (subs : List Submission) : List Submission :=
  subs.filter (fun sub =>
    match sub.verification with
    | some v => v.isValid
    | none => false)

/-- The filtered list sorted by the comparator (JS `.sort` is stable, hence
`insertionSort`). -/
def sortedSubmissionsOf (subs : List Submission) : List Submission :=
  List.insertionSort subLE (validSubmissionsOf subs)

/-- `determineWinners(submissions, maxWinners)`.  The wall clock read by
`new Date().toISOString()` for the result's `timestamp` field is the explicit
parameter `now`. -/
def determineWinners (subs : List Submission) (maxWinners : ℕ) (now : ℤ) :
    WinnerResult :=
  let sorted := sortedSubmissionsOf subs
  let winners := sorted.take maxWinners
  let dist := calculateRewardDistribution winners.length maxWinners
  { winners := mkWinnerRecords dist winners 0
    totalSubmissions := subs.length
    validSubmissions := sorted.length
    timestamp := now }

/-! ## FraudDetector (`detectFraud` and its four checks) -/

/-- The `{suspicious, reason}` object each fraud check returns. -/
structure CheckResult where
  suspicious : Bool
  reason : String
deriving DecidableEq, Repr

/-- The `fraudChecks` object assembled inside `detectFraud`. -/
structure FraudChecks where
  duplicateContent : CheckResult
  unusualTiming : CheckResult
  metadataInconsistencies : CheckResult
  scoreAnomalies : CheckResult
deriving DecidableEq, Repr

/-- `Object.values(fraudChecks).filter(check => check.suspicious).length`. -/
def suspiciousCount (fc : FraudChecks) : ℕ :=
  ([fc.duplicateContent, fc.unusualTiming, fc.metadataInconsistencies,
    fc.scoreAnomalies].filter (·.suspicious)).length

/-- `checkDuplicateContent(submission, previousSubmissions)`: suspicious iff
some prior submission's `proofHash` is strictly equal (`===`) to the current
one's.  Both sides may be `undefined` (`none`), and `undefined === undefined`
is `true` in JS, so two absent hashes compare equal.  A non-array
`previousSubmissions` (`none`) makes `.find` throw. -/
def checkDuplicateContent (s : Submission)
    (previousSubmissions : Option (List Submission)) :
    Except String CheckResult :=
  match previousSubmissions with
  | none => .error "previousSubmissions.find is not a function"
  | some prevs =>
    let contentHash := s.proofHash
    let duplicate := prevs.find? (fun prev => prev.proofHash == contentHash)
    .ok { suspicious := duplicate.isSome
          reason := if duplicate.isSome then "Duplicate content hash detected"
                    else "Content appears unique" }

/-- `checkUnusualTiming(submission)`: suspicious iff the submission timestamp
is more than 5 minutes away from `now` and lies in the future. -/
def checkUnusualTiming (s : Submission) (now : ℤ) : CheckResult :=
  let submissionTime := s.timestamp
  let timeDiff := |now - submissionTime|
  let suspicious := decide (timeDiff > 5 * 60 * 1000) && decide (submissionTime > now)
  { suspicious := suspicious
    reason := if suspicious then "Submission timestamp appears manipulated"
              else "Timing appears normal" }

/-- JS truthiness of an optional string property (`undefined` and the empty
string are falsy). -/
def jsTruthyStr : Option String → Bool
  | some s => s ≠ ""
  | none => false

/-- `submission.metadata || {}`: the metadata object, or an empty object when
the field is absent. -/
def metadataOrEmpty (s : Submission) : SubMetadata :=
  match s.metadata with
  | some m => m
  | none => { device := none, timestamp := none, location := none }

/-- `checkMetadataConsistency(submission)`: suspicious iff
`metadata.device && metadata.timestamp && metadata.location` is falsy. -/
def checkMetadataConsistency (s : Submission) : CheckResult :=
  let metadata := metadataOrEmpty s
  let hasRequiredFields := jsTruthyStr metadata.device
    && jsTruthyStr metadata.timestamp && jsTruthyStr metadata.location
  { suspicious := ! hasRequiredFields
    reason := if hasRequiredFields then "Metadata appears complete"
              else "Missing critical metadata" }

/-- `checkScoreAnomalies(submission, previousSubmissions)`:
returns not-suspicious when `previousSubmissions.length < 3`; otherwise
averages the scores of the priors that carry a `verification` and flags the
submission iff its score exceeds that average by more than 30 and itself
exceeds 80.  When no prior carries a verdict the average is `0/0 = NaN` in JS
and both `>` comparisons are false, hence the empty-scores guard.  A non-array
`previousSubmissions` makes `.filter` throw. -/
def checkScoreAnomalies (s : Submission)
    (previousSubmissions : Option (List Submission)) :
    Except String CheckResult :=
  match previousSubmissions with
  | none => .error "previousSubmissions.filter is not a function"
  | some prevs =>
    if prevs.length < 3 then
      .ok { suspicious := false, reason := "Insufficient data for comparison" }
    else
      let scores := (prevs.filter (fun sub => sub.verification.isSome)).map vscore
      let submissionScore := vscore s
      let suspicious := decide (scores ≠ []) &&
        decide (submissionScore > scores.sum / (scores.length : ℚ) + 30) &&
        decide (submissionScore > 80)
      .ok { suspicious := suspicious
            reason := if suspicious then "Score significantly higher than average"
                      else "Score within normal range" }

/-- The `fraudChecks` object literal of `detectFraud`: evaluating it runs all
four checks, and any check that throws makes the whole literal throw. -/
def runFraudChecks (s : Submission)
    (previousSubmissions : Option (List Submission)) (now : ℤ) :
    Except String FraudChecks := do
  let dup ← checkDuplicateContent s previousSubmissions
  let anomalies ← checkScoreAnomalies s previousSubmissions
  .ok { duplicateContent := dup
        unusualTiming := checkUnusualTiming s now
        metadataInconsistencies := checkMetadataConsistency s
        scoreAnomalies := anomalies }

/-- The object `detectFraud` returns; `fraudChecks = none` models the empty
object `{}` of the catch branch. -/
structure FraudAssessment where
  riskScore : ℚ
  fraudChecks : Option FraudChecks
  recommendation : String
deriving DecidableEq, Repr

/-- `detectFraud(submission, previousSubmissions)`: runs the four checks,
sets `riskScore = suspicious / 4 * 100` and maps it to a recommendation
(`> 50 → reject`, `> 25 → review`, otherwise `approve`).  The surrounding
`try/catch` turns any thrown error into
`{riskScore: 0, fraudChecks: {}, recommendation: 'approve'}`. -/
def detectFraud (s : Submission)
    (previousSubmissions : Option (List Submission)) (now : ℤ) :
    FraudAssessment :=
  match runFraudChecks s previousSubmissions now with
  | .ok fc =>
    let riskScore := (suspiciousCount fc : ℚ) / 4 * 100
    { riskScore := riskScore
      fraudChecks := some fc
      recommendation :=
        if riskScore > 50 then "reject"
        else if riskScore > 25 then "review"
        else "approve" }
  | .error _ =>
    { riskScore := 0, fraudChecks := none, recommendation := "approve" }

/-! ## Helper lemmas -/

deriving instance DecidableEq for Except

theorem subCmp_neg (a b : Submission) : subCmp b a = - subCmp a b := by
  unfold subCmp
  by_cases h : vscore a = vscore b
  · simp only [h, ne_eq, not_true_eq_false, if_false]
    push_cast
    ring
  · simp only [ne_eq, h, Ne.symm h, not_false_eq_true, if_true]
    ring

instance : IsTotal Submission subLE :=
  ⟨fun a b => by
    rcases le_total (subCmp a b) 0 with h | h
    · exact Or.inl h
    · refine Or.inr ?_
      unfold subLE
      rw [subCmp_neg]
      linarith⟩

instance : IsTrans Submission subLE :=
  ⟨fun a b c hab hbc => by
    rw [subLE_iff] at hab hbc ⊢
    rcases hab with h1 | ⟨h1, h1t⟩ <;> rcases hbc with h2 | ⟨h2, h2t⟩
    · exact Or.inl (h2.trans h1)
    · exact Or.inl (h2 ▸ h1)
    · exact Or.inl (lt_of_lt_of_le h2 h1.le)
    · exact Or.inr ⟨h2.trans h1, h1t.trans h2t⟩⟩

theorem mkWinnerRecords_length (dist : List ℚ) :
    ∀ (L : List Submission) (i : ℕ), (mkWinnerRecords dist L i).length = L.length
  | [], _ => rfl
  | _ :: rest, i => by
    simp [mkWinnerRecords, mkWinnerRecords_length dist rest (i + 1)]

theorem mkWinnerRecords_map_score (dist : List ℚ) :
    ∀ (L : List Submission) (i : ℕ),
      (mkWinnerRecords dist L i).map (·.score) = L.map vscore
  | [], _ => rfl
  | _ :: rest, i => by
    simp [mkWinnerRecords, mkWinnerRecords_map_score dist rest (i + 1)]

theorem mkWinnerRecords_mem (dist : List ℚ) :
    ∀ (L : List Submission) (i : ℕ) (r : WinnerRecord),
      r ∈ mkWinnerRecords dist L i →
        i < r.rank ∧ r.rewardPercentage = dist[r.rank - 1]?
  | [], _, _, h => absurd h (List.not_mem_nil _)
  | w :: rest, i, r, h => by
    rcases List.mem_cons.mp h with h | h
    · subst h
      exact ⟨Nat.lt_succ_self i, rfl⟩
    · obtain ⟨hi, hr⟩ := mkWinnerRecords_mem dist rest (i + 1) r h
      exact ⟨Nat.lt_of_succ_lt hi, hr⟩

theorem calculateRewardDistribution_fallback (n k : ℕ) (h : 3 < min n k) :
    calculateRewardDistribution n k = [50, 30, 20] := by
  have h1 : min n k ≠ 1 := by omega
  have h2 : min n k ≠ 2 := by omega
  have h3 : min n k ≠ 3 := by omega
  simp [calculateRewardDistribution, h1, h2, h3]

theorem calculateRewardDistribution_length (n k : ℕ) :
    (calculateRewardDistribution n k).length ≤ 3 := by
  by_cases h1 : min n k = 1 <;> by_cases h2 : min n k = 2 <;> by_cases h3 : min n k = 3 <;>
    simp [calculateRewardDistribution, h1, h2, h3]

/-! ## Claim theorems -/

/-- **C1**: for every judge response that parses and carries a numeric score
`s` — including `s < 0` and `s > 100` — `verifyChallenge` returns a verdict
whose score is `max 0 (min 100 s)`, which always lies in `[0, 100]`; since
`verifyChallengeResult` is a total function into `Verdict`, verification never
fails because the score was out of range. -/
theorem verifyChallenge_clamps_score (r : JudgeResponse) (s : ℚ)
    (model ts : String) (h : r.score = some (.num s)) :
    (verifyChallengeResult r model ts).score = some (max 0 (min 100 s)) ∧
    0 ≤ max 0 (min 100 s) ∧ max 0 (min 100 s) ≤ (100 : ℚ) := by
  refine ⟨?_, le_max_left _ _, max_le (by norm_num) (min_le_left _ _)⟩
  simp [verifyChallengeResult, toJsNumber, h, jsMin, jsMax]

/-- Witness for **C1** at the out-of-range score `150`: the verdict's score is
the clamp `max 0 (min 100 150) = 100`. -/
theorem verifyChallenge_clamps_score_witness :
    (verifyChallengeResult
        ⟨some (.bool true), some (.num 150), some (.str "r"), some (.num 1)⟩
        "gpt-4" "t").score = some (max 0 (min 100 (150 : ℚ))) ∧
    0 ≤ max 0 (min 100 (150 : ℚ)) ∧ max 0 (min 100 (150 : ℚ)) ≤ (100 : ℚ) :=
  verifyChallenge_clamps_score
    ⟨some (.bool true), some (.num 150), some (.str "r"), some (.num 1)⟩
    150 "gpt-4" "t" rfl

/-- **C2** (code bug): `validateAIResponse` does reject a response missing
`confidence`, and one with `confidence = 3/2`, exactly as the spec says — but
`verifyChallenge` never invokes it: on both inputs the post-parse step returns
a `Verdict` (with `confidence` absent, resp. `3/2`) instead of failing. -/
theorem verifyChallenge_skips_validation :
    validateAIResponse
        ⟨some (.bool true), some (.num 50), some (.str "ok"), none⟩
      = .error "AI response missing required fields: confidence" ∧
    verifyChallengeResult
        ⟨some (.bool true), some (.num 50), some (.str "ok"), none⟩ "gpt-4" "t"
      = ⟨some (.bool true), some 50, some (.str "ok"), none, "gpt-4", "t"⟩ ∧
    validateAIResponse
        ⟨some (.bool true), some (.num 50), some (.str "ok"), some (.num (3/2))⟩
      = .error "confidence must be a number between 0 and 1" ∧
    (verifyChallengeResult
        ⟨some (.bool true), some (.num 50), some (.str "ok"), some (.num (3/2))⟩
        "gpt-4" "t").confidence = some (.num (3/2)) := by
  refine ⟨by decide, by decide, ?_, rfl⟩
  norm_num [validateAIResponse, missingFields, requiredFields, hasField,
    isBooleanField, asNumber]

/-- **C9**: when a fraud check throws — here, `previousSubmissions` is not an
array, so `.find`/`.filter` fail — `detectFraud` catches the error and returns
`riskScore = 0`, an empty checks object and recommendation `approve`. -/
theorem detectFraud_nonarray_priors_approves (s : Submission) (now : ℤ) :
    detectFraud s none now =
      { riskScore := 0, fraudChecks := none, recommendation := "approve" } :=
  rfl

/-- **C10**: the duplicate-content check compares `proofHash` with `===` and
no presence guard, and `undefined === undefined` holds, so a submission with
no `proofHash` is flagged as a duplicate whenever some prior submission also
lacks one. -/
theorem checkDuplicateContent_absent_hash (s : Submission)
    (prevs : List Submission) (p : Submission) (hs : s.proofHash = none)
    (hp : p ∈ prevs) (hph : p.proofHash = none) :
    checkDuplicateContent s (some prevs)
      = .ok ⟨true, "Duplicate content hash detected"⟩ := by
  have hfind : (prevs.find? (fun prev => prev.proofHash == s.proofHash)).isSome := by
    rw [List.find?_isSome]
    exact ⟨p, hp, by simp [hph, hs]⟩
  simp [checkDuplicateContent, hfind]

/-- Witness for **C10**: a hashless submission against a single hashless prior
is flagged as duplicate content. -/
theorem checkDuplicateContent_absent_hash_witness :
    checkDuplicateContent ⟨"s", "z", 0, none, none, none⟩
        (some [⟨"p", "z", 0, none, none, none⟩])
      = .ok ⟨true, "Duplicate content hash detected"⟩ :=
  checkDuplicateContent_absent_hash ⟨"s", "z", 0, none, none, none⟩
    [⟨"p", "z", 0, none, none, none⟩] ⟨"p", "z", 0, none, none, none⟩
    rfl (List.mem_singleton.mpr rfl) rfl

/-- Submission with id `"a"`: score 80 at epoch 100 — same score and timestamp
as [tieSubY] but a distinct id. -/
def tieSubX : Submission := ⟨"a", "alice", 100, some ⟨true, 80⟩, some "ha", none⟩

/-- Submission with id `"b"`: score 80 at epoch 100. -/
def tieSubY : Submission := ⟨"b", "bob", 100, some ⟨true, 80⟩, some "hb", none⟩

/-- **C3** counterexample: the comparator never reads `submissionId`, so the
relative order of two submissions with equal score and equal timestamp is NOT
defined by an id tie-break: the same two submissions `tieSubX` (id `"a"`) and
`tieSubY` (id `"b"`) come out in one order when passed as `[X, Y]` and in the
opposite order when passed as `[Y, X]` — the order follows input position. -/
theorem determineWinners_no_id_tiebreak :
    vscore tieSubX = vscore tieSubY ∧
    tieSubX.timestamp = tieSubY.timestamp ∧
    tieSubX.submissionId ≠ tieSubY.submissionId ∧
    ((determineWinners [tieSubX, tieSubY] 2 0).winners.map (·.submissionId))
      = ["a", "b"] ∧
    ((determineWinners [tieSubY, tieSubX] 2 0).winners.map (·.submissionId))
      = ["b", "a"] := by
  decide

/-- The spec's example submission A: score 80 at 2024-01-01T00:00:00Z
(epoch 1704067200000 ms). -/
def exampleSubA : Submission :=
  ⟨"a", "alice", 1704067200000, some ⟨true, 80⟩, some "ha", none⟩

/-- The spec's example submission B: score 80 at 2024-01-01T00:05:00Z
(epoch 1704067500000 ms). -/
def exampleSubB : Submission :=
  ⟨"b", "bob", 1704067500000, some ⟨true, 80⟩, some "hb", none⟩

/-- **C3** (amended): `determineWinners` orders the valid submissions by score
descending with score ties broken by timestamp ascending — the selection list
is sorted for `subLE` and the emitted winner records carry non-increasing
scores — and the ordering is total because the sort is stable: two submissions
tied on both keys keep their input order (any `subLE`-ordered pair that is a
sublist of the filtered input survives in the sort); there is no tie-break on
submission id.  On the spec's example, A (earlier, score 80) gets rank 1 and B
(later, score 80) rank 2. -/
theorem determineWinners_ordering (subs : List Submission) (k : ℕ) (now : ℤ) :
    List.Sorted subLE ((sortedSubmissionsOf subs).take k) ∧
    List.Pairwise (fun p q : WinnerRecord => q.score ≤ p.score)
      ((determineWinners subs k now).winners) ∧
    (∀ a b : Submission, subLE a b →
      List.Sublist [a, b] (validSubmissionsOf subs) →
      List.Sublist [a, b] (sortedSubmissionsOf subs)) ∧
    ((determineWinners [exampleSubA, exampleSubB] 2 now).winners.map
      (fun w => (w.submissionId, w.rank))) = [("a", 1), ("b", 2)] := by
  have hsorted : List.Sorted subLE (sortedSubmissionsOf subs) :=
    List.sorted_insertionSort subLE _
  have htake : List.Sorted subLE ((sortedSubmissionsOf subs).take k) :=
    hsorted.sublist (List.take_sublist k _)
  refine ⟨htake, ?_, ?_, ?_⟩
  · have hscores : List.Pairwise (fun a b : Submission => vscore b ≤ vscore a)
        ((sortedSubmissionsOf subs).take k) := by
      refine htake.imp ?_
      intro a b hab
      rcases (subLE_iff a b).mp hab with h | ⟨h, _⟩
      · exact h.le
      · exact h.le
    have hmap := (List.pairwise_map (l := (sortedSubmissionsOf subs).take k)
      (f := vscore) (R := fun x y : ℚ => y ≤ x)).mpr hscores
    rw [← mkWinnerRecords_map_score
      (calculateRewardDistribution ((sortedSubmissionsOf subs).take k).length k)
      ((sortedSubmissionsOf subs).take k) 0] at hmap
    exact (List.pairwise_map).mp hmap
  · intro a b hab hsub
    exact List.pair_sublist_insertionSort hab hsub
  · have : ∀ w : List WinnerRecord, w =
      (determineWinners [exampleSubA, exampleSubB] 2 now).winners →
      w.map (fun x => (x.submissionId, x.rank)) = [("a", 1), ("b", 2)] := by
      intro w hw
      rw [hw]
      show (mkWinnerRecords _ _ 0).map _ = _
      decide
    exact this _ rfl

/-- Witness for **C3** (amended): on the two tied submissions, the
`subLE`-ordered input pair `[tieSubX, tieSubY]` survives as a sublist of the
sorted selection — ties keep input order. -/
theorem determineWinners_ordering_witness :
    List.Sublist [tieSubX, tieSubY]
      (sortedSubmissionsOf [tieSubX, tieSubY]) :=
  (determineWinners_ordering [tieSubX, tieSubY] 2 0).2.2.1 tieSubX tieSubY
    (by decide) (by decide)

/-- **C4**: `determineWinners` assigns `rewardPercentage` per rank from the
fixed table keyed by the actual number of winners selected: 1 winner →
`[100]`, 2 winners → `[70, 30]`, 3 winners → `[50, 30, 20]` (and the latter
sum to 100). -/
theorem determineWinners_reward_table (subs : List Submission) (k : ℕ)
    (now : ℤ) :
    ((determineWinners subs k now).winners.length = 1 →
      (determineWinners subs k now).winners.map (·.rewardPercentage)
        = [some 100]) ∧
    ((determineWinners subs k now).winners.length = 2 →
      (determineWinners subs k now).winners.map (·.rewardPercentage)
        = [some 70, some 30]) ∧
    ((determineWinners subs k now).winners.length = 3 →
      (determineWinners subs k now).winners.map (·.rewardPercentage)
        = [some 50, some 30, some 20] ∧
      (((determineWinners subs k now).winners.map
        (·.rewardPercentage)).reduceOption).sum = 100) := by
  set L := (sortedSubmissionsOf subs).take k with hL
  have hLk : L.length ≤ k := by
    rw [hL, List.length_take]
    exact min_le_left _ _
  have hwin : (determineWinners subs k now).winners
      = mkWinnerRecords (calculateRewardDistribution L.length k) L 0 := rfl
  have hlen : (determineWinners subs k now).winners.length = L.length := by
    rw [hwin, mkWinnerRecords_length]
  have hmin : min L.length k = L.length := Nat.min_eq_left hLk
  refine ⟨?_, ?_, ?_⟩
  · intro h1
    rw [hlen] at h1
    obtain ⟨a, ha⟩ := List.length_eq_one.mp h1
    have hdist : calculateRewardDistribution L.length k = [100] := by
      rw [h1]
      simp [calculateRewardDistribution, Nat.min_eq_left (h1 ▸ hLk)]
    rw [hwin, hdist, ha]
    rfl
  · intro h1
    rw [hlen] at h1
    obtain ⟨a, b, ha⟩ := List.length_eq_two.mp h1
    have hdist : calculateRewardDistribution L.length k = [70, 30] := by
      rw [h1]
      simp [calculateRewardDistribution, Nat.min_eq_left (h1 ▸ hLk)]
    rw [hwin, hdist, ha]
    rfl
  · intro h1
    rw [hlen] at h1
    obtain ⟨a, b, c, ha⟩ := List.length_eq_three.mp h1
    have hdist : calculateRewardDistribution L.length k = [50, 30, 20] := by
      rw [h1]
      simp [calculateRewardDistribution, Nat.min_eq_left (h1 ▸ hLk)]
    rw [hwin, hdist, ha]
    refine ⟨rfl, ?_⟩
    show ([some (50:ℚ), some 30, some 20].reduceOption).sum = 100
    simp [List.reduceOption]
    norm_num

/-- A valid submission with a given id, timestamp and score, used as winner
material in witnesses. -/
def winSub (i : ℕ) (sc : ℚ) : Submission :=
  ⟨toString i, "w", (i : ℤ), some ⟨true, sc⟩, some (toString i), none⟩

/-- Witness for **C4**: one, two and three valid submissions receive reward
percentages `[100]`, `[70, 30]` and `[50, 30, 20]` respectively, the latter
summing to 100. -/
theorem determineWinners_reward_table_witness :
    ((determineWinners [winSub 1 90] 1 0).winners.map (·.rewardPercentage)
      = [some 100]) ∧
    ((determineWinners [winSub 1 90, winSub 2 85] 2 0).winners.map
      (·.rewardPercentage) = [some 70, some 30]) ∧
    ((determineWinners [winSub 1 90, winSub 2 85, winSub 3 70] 3 0).winners.map
      (·.rewardPercentage) = [some 50, some 30, some 20] ∧
     (((determineWinners [winSub 1 90, winSub 2 85, winSub 3 70] 3 0).winners.map
      (·.rewardPercentage)).reduceOption).sum = 100) :=
  ⟨(determineWinners_reward_table [winSub 1 90] 1 0).1 (by decide),
   (determineWinners_reward_table [winSub 1 90, winSub 2 85] 2 0).2.1 (by decide),
   (determineWinners_reward_table [winSub 1 90, winSub 2 85, winSub 3 70] 3 0).2.2
     (by decide)⟩

/-- **C5** counterexample: `determineWinners` is not a pure function of
`(S, k)` alone — its result embeds `new Date().toISOString()`, so the same
input at two different clock readings yields structurally different results
(the `timestamp` fields differ). -/
theorem determineWinners_reads_clock :
    determineWinners [] 3 0 ≠ determineWinners [] 3 1 := by
  decide

/-- **C5** (amended): all result fields except the wall-clock `timestamp` are
deterministic in `(S, k)`: two calls on the same submissions and the same
`maxWinners` agree on `winners`, `totalSubmissions` and `validSubmissions`,
however the clock reads. -/
theorem determineWinners_deterministic_modulo_clock (subs : List Submission)
    (k : ℕ) (now₁ now₂ : ℤ) :
    (determineWinners subs k now₁).winners
      = (determineWinners subs k now₂).winners ∧
    (determineWinners subs k now₁).totalSubmissions
      = (determineWinners subs k now₂).totalSubmissions ∧
    (determineWinners subs k now₁).validSubmissions
      = (determineWinners subs k now₂).validSubmissions :=
  ⟨rfl, rfl, rfl⟩

/-- A submission whose only failing fraud check is metadata completeness:
verified, unique proof hash, timestamp not in the future, no metadata. -/
def loneFlagSub : Submission := ⟨"s6", "sam", 0, some ⟨true, 50⟩, some "h6", none⟩

/-- The check results `detectFraud loneFlagSub (some []) 0` computes: exactly
one of the four is suspicious. -/
def loneFlagChecks : FraudChecks :=
  ⟨⟨false, "Content appears unique"⟩, ⟨false, "Timing appears normal"⟩,
   ⟨true, "Missing critical metadata"⟩, ⟨false, "Insufficient data for comparison"⟩⟩

/-- **C6** counterexample: on a submission with exactly one suspicious check
(missing metadata, fewer than 3 priors), `detectFraud` returns
`riskScore = 25` but recommendation `approve`, not `review`: the code's
`riskScore > 25 ? 'review'` test is strict, so 25 falls through to
`approve`. -/
theorem detectFraud_single_flag_counterexample :
    runFraudChecks loneFlagSub (some []) 0 = .ok loneFlagChecks ∧
    suspiciousCount loneFlagChecks = 1 ∧
    detectFraud loneFlagSub (some []) 0
      = { riskScore := 25, fraudChecks := some loneFlagChecks,
          recommendation := "approve" } ∧
    (detectFraud loneFlagSub (some []) 0).recommendation ≠ "review" := by
  have h1 : runFraudChecks loneFlagSub (some []) 0 = .ok loneFlagChecks := by
    decide
  have hc : suspiciousCount loneFlagChecks = 1 := by decide
  have h3 : detectFraud loneFlagSub (some []) 0
      = { riskScore := 25, fraudChecks := some loneFlagChecks,
          recommendation := "approve" } := by
    simp only [detectFraud, h1, hc]
    norm_num
  exact ⟨h1, hc, h3, by rw [h3]; decide⟩

/-- **C6** (amended): whenever the four checks run without throwing and
exactly one reports suspicious, `detectFraud` returns `riskScore = 25` and
recommendation `approve` (not `review`: 25 is not `> 25`), with the computed
checks attached. -/
theorem detectFraud_single_flag_approve (s : Submission)
    (prevs : List Submission) (now : ℤ) (fc : FraudChecks)
    (hfc : runFraudChecks s (some prevs) now = .ok fc)
    (h1 : suspiciousCount fc = 1) :
    detectFraud s (some prevs) now
      = { riskScore := 25, fraudChecks := some fc,
          recommendation := "approve" } := by
  simp only [detectFraud, hfc, h1]
  norm_num

/-- Witness for **C6**: the amended statement applied to `loneFlagSub` with no
prior submissions. -/
theorem detectFraud_single_flag_approve_witness :
    detectFraud loneFlagSub (some []) 0
      = { riskScore := 25, fraudChecks := some loneFlagChecks,
          recommendation := "approve" } :=
  detectFraud_single_flag_approve loneFlagSub [] 0 loneFlagChecks
    (by decide) (by decide)

theorem checkScoreAnomalies_suspicious_of (s : Submission)
    (l : List Submission) (h3 : ¬ l.length < 3)
    (hne : (l.filter (fun sub => sub.verification.isSome)).map vscore ≠ [])
    (havg : vscore s >
      ((l.filter (fun sub => sub.verification.isSome)).map vscore).sum
        / ((((l.filter (fun sub => sub.verification.isSome)).map vscore).length : ℚ))
        + 30)
    (h80 : vscore s > 80) :
    checkScoreAnomalies s (some l)
      = .ok ⟨true, "Score significantly higher than average"⟩ := by
  simp only [checkScoreAnomalies, if_neg h3]
  rw [List.length_map] at havg
  simp [hne, havg, h80]

/-- Prior submission carrying a verdict with score 10. -/
def anomalyPrior1 : Submission := ⟨"p1", "x", 0, some ⟨true, 10⟩, some "h1", none⟩

/-- Prior submission with no verdict. -/
def anomalyPrior2 : Submission := ⟨"p2", "x", 0, none, some "h2", none⟩

/-- Prior submission with no verdict. -/
def anomalyPrior3 : Submission := ⟨"p3", "x", 0, none, some "h3", none⟩

/-- Submission with verified score 90, judged against the three priors
above (of which only one carries a verdict). -/
def anomalySub : Submission := ⟨"s7", "y", 0, some ⟨true, 90⟩, some "h7", none⟩

/-- **C7** counterexample: the gate of the score-anomaly check counts ALL
prior submissions, not the verified ones: with 3 priors of which only one
carries a verdict (score 10), the check is evaluated and flags a submission
scoring 90 as suspicious — the claim says it must be skipped (not suspicious)
because fewer than 3 priors carry a verdict. -/
theorem checkScoreAnomalies_gate_counterexample :
    (([anomalyPrior1, anomalyPrior2, anomalyPrior3].filter
      (fun p => p.verification.isSome)).length = 1) ∧
    checkScoreAnomalies anomalySub
        (some [anomalyPrior1, anomalyPrior2, anomalyPrior3])
      = .ok ⟨true, "Score significantly higher than average"⟩ := by
  refine ⟨by decide, ?_⟩
  apply checkScoreAnomalies_suspicious_of
  · decide
  · simp [anomalyPrior1, anomalyPrior2, anomalyPrior3]
  · norm_num [anomalyPrior1, anomalyPrior2, anomalyPrior3, anomalySub,
      vscore, List.filter]
  · norm_num [anomalySub, vscore]

/-- **C7** (amended): the score-anomaly check is gated on the TOTAL number of
prior submissions: with fewer than 3 priors it reports not-suspicious (never
an error); with at least 3 priors it is evaluated over those priors that carry
a verdict, and is suspicious exactly when such priors exist (otherwise the JS
average is `NaN` and the comparison is false) and the current score exceeds
their mean by more than 30 and itself exceeds 80. -/
theorem checkScoreAnomalies_gate (s : Submission) (prevs : List Submission) :
    (prevs.length < 3 →
      checkScoreAnomalies s (some prevs)
        = .ok ⟨false, "Insufficient data for comparison"⟩) ∧
    (3 ≤ prevs.length →
      ∀ r : CheckResult, checkScoreAnomalies s (some prevs) = .ok r →
        (r.suspicious = true ↔
          (prevs.filter (fun p => p.verification.isSome)) ≠ [] ∧
          vscore s >
            ((prevs.filter (fun p => p.verification.isSome)).map vscore).sum
              / ((((prevs.filter
                  (fun p => p.verification.isSome)).map vscore).length : ℚ))
              + 30 ∧
          vscore s > 80)) := by
  constructor
  · intro h
    simp [checkScoreAnomalies, h]
  · intro h r hr
    have h3 : ¬ prevs.length < 3 := not_lt.mpr h
    simp only [checkScoreAnomalies, if_neg h3, Except.ok.injEq] at hr
    subst hr
    simp [Bool.and_eq_true, decide_eq_true_eq, List.map_eq_nil_iff, and_assoc]

/-- Witness for **C7**: with no prior submissions the check reports
not-suspicious, and on `anomalySub` against the three priors (3 ≥ 3, one
verified with score 10) the suspicious verdict is equivalent to the mean
comparison, which holds. -/
theorem checkScoreAnomalies_gate_witness :
    checkScoreAnomalies anomalySub (some [])
      = .ok ⟨false, "Insufficient data for comparison"⟩ :=
  (checkScoreAnomalies_gate anomalySub []).1 (by decide)

/-- **C8**: when more than 3 winners are selected, the reward table lookup
falls back to the 3-entry table `[50, 30, 20]`, and every winner ranked 4 or
beyond receives `rewardPercentage = none` (the table has no entry at its
index, JS `undefined`). -/
theorem determineWinners_rank_above_three (subs : List Submission) (k : ℕ)
    (now : ℤ) :
    (3 < ((sortedSubmissionsOf subs).take k).length →
      calculateRewardDistribution ((sortedSubmissionsOf subs).take k).length k
        = [50, 30, 20]) ∧
    (∀ r ∈ (determineWinners subs k now).winners, 3 < r.rank →
      r.rewardPercentage = none) := by
  have hLk : ((sortedSubmissionsOf subs).take k).length ≤ k := by
    rw [List.length_take]
    exact min_le_left _ _
  constructor
  · intro h
    apply calculateRewardDistribution_fallback
    rw [Nat.min_eq_left hLk]
    exact h
  · intro r hr hrank
    have hr' : r ∈ mkWinnerRecords
        (calculateRewardDistribution ((sortedSubmissionsOf subs).take k).length k)
        ((sortedSubmissionsOf subs).take k) 0 := hr
    obtain ⟨-, hpct⟩ := mkWinnerRecords_mem _ _ _ r hr'
    rw [hpct]
    apply List.getElem?_eq_none
    have := calculateRewardDistribution_length
      ((sortedSubmissionsOf subs).take k).length k
    omega

/-- Four valid submissions with distinct scores, for the above-3-winners
scenario. -/
def fourValid : List Submission :=
  [winSub 1 90, winSub 2 85, winSub 3 70, winSub 4 60]

/-- Witness for **C8**: with four valid submissions and `maxWinners = 4` the
distribution falls back to `[50, 30, 20]` and the rank-4 winner record (which
`determineWinners` does emit) has no reward percentage. -/
theorem determineWinners_rank_above_three_witness :
    calculateRewardDistribution ((sortedSubmissionsOf fourValid).take 4).length 4
      = [50, 30, 20] ∧
    (⟨"4", "w", 60, 4, none⟩ : WinnerRecord).rewardPercentage = none :=
  ⟨(determineWinners_rank_above_three fourValid 4 0).1 (by decide),
   (determineWinners_rank_above_three fourValid 4 0).2
     ⟨"4", "w", 60, 4, none⟩ (by decide) (by decide)⟩

end EventChain
